import Mathlib

/-!
# Verification of the speech-coach widget session logic

A shallow embedding of the recording-session logic of the `WidgetApp`
component (speech recognition transcript assembly, dedup of forwarded text
segments, session lifecycle start/stop/clear, stats polling with field-wise
merge, and the recognition auto-restart policy).

React component state is modelled as one record (`WidgetState`); each handler
becomes a pure function from the state (plus oracle responses for the network
calls it awaits) to the new state together with the list of externally visible
actions it performs, in order.  Network responses are passed in explicitly:
`none` models a thrown fetch exception, and a response record carries the
`response.ok` flag and the decoded JSON fields the code inspects.
-/

namespace VoiceCoach

/-- The fixed set of live coaching metrics kept in the `liveStats` state. -/
structure LiveStats where
  fluency : Int
  volume : Int
  articulation : Int
  clarity : Int
  filler_words : Int
  speaking_rate : Int
  confidence : Int
deriving DecidableEq

/-- The initial `liveStats` value: every metric is `0` (as in `useState`). -/
def initialLiveStats : LiveStats :=
  { fluency := 0, volume := 0, articulation := 0, clarity := 0,
    filler_words := 0, speaking_rate := 0, confidence := 0 }

/-- A `live_stats` payload from a backend response: each known metric may be
present or absent (the code spreads the payload over the previous record). -/
structure StatsPayload where
  fluency : Option Int
  volume : Option Int
  articulation : Option Int
  clarity : Option Int
  filler_words : Option Int
  speaking_rate : Option Int
  confidence : Option Int
deriving DecidableEq

/-- Names of the seven live metrics, for field-generic statements. -/
inductive Metric where
  | fluency | volume | articulation | clarity
  | filler_words | speaking_rate | confidence
deriving DecidableEq

/-- Read one metric from a `LiveStats` record. -/
def LiveStats.get (ls : LiveStats) : Metric → Int
  | .fluency => ls.fluency
  | .volume => ls.volume
  | .articulation => ls.articulation
  | .clarity => ls.clarity
  | .filler_words => ls.filler_words
  | .speaking_rate => ls.speaking_rate
  | .confidence => ls.confidence

/-- Read one metric from a response payload. -/
def StatsPayload.get (p : StatsPayload) : Metric → Option Int
  | .fluency => p.fluency
  | .volume => p.volume
  | .articulation => p.articulation
  | .clarity => p.clarity
  | .filler_words => p.filler_words
  | .speaking_rate => p.speaking_rate
  | .confidence => p.confidence

/-- `setLiveStats(prev => ({ ...prev, ...data.live_stats }))`: a present field
takes the payload value, an absent field keeps the previous value. -/
def mergeLiveStats (prev : LiveStats) (p : StatsPayload) : LiveStats :=
  { fluency := p.fluency.getD prev.fluency
    volume := p.volume.getD prev.volume
    articulation := p.articulation.getD prev.articulation
    clarity := p.clarity.getD prev.clarity
    filler_words := p.filler_words.getD prev.filler_words
    speaking_rate := p.speaking_rate.getD prev.speaking_rate
    confidence := p.confidence.getD prev.confidence }

/-- The final analysis payload returned by the backend `stop` call. -/
structure Analysis where
  overall_score : Int
  observations : List String
  improvements : List String
  strengths : List String
  quick_tip : String
deriving DecidableEq

/-- A decoded response for the stats poll and the audio/text analysis post:
`ok` is `response.ok`, `success` is `data.success`, and `live_stats` is the
optional `data.live_stats` payload. -/
structure StatsResponse where
  ok : Bool
  success : Bool
  live_stats : Option StatsPayload
deriving DecidableEq

/-- A decoded response for the backend `stop` call. -/
structure StopResponse where
  ok : Bool
  success : Bool
  analysis : Option Analysis
deriving DecidableEq

/-- One entry of a recognition result list: the transcript text of the best
alternative and its `isFinal` flag. -/
structure RecResult where
  text : String
  isFinal : Bool
deriving DecidableEq

/-- Externally visible actions the handlers perform, in order: backend
requests and local teardown steps. -/
inductive Act where
  | createSession : Act
  | startSession : String → Act
  | audioPost : String → String → Act
  | statsGet : String → Act
  | stopPoller : Act
  | stopRecognition : Act
  | stopAudioCapture : Act
  | closeAudioContext : Act
  | backendStop : String → Act
  | deleteSession : String → Act
deriving DecidableEq

/-- JavaScript falsiness of a string: only `""` is falsy. -/
def strFalsy (s : String) : Bool := s = ""

/-- `String.prototype.trim`: remove leading and trailing whitespace. -/
def jsTrim (s : String) : String :=
  ⟨((s.data.dropWhile Char.isWhitespace).reverse.dropWhile Char.isWhitespace).reverse⟩

/-- JavaScript falsiness of the nullable `sessionId` value:
`null` and `""` are falsy. -/
def optStrFalsy : Option String → Bool
  | none => true
  | some s => strFalsy s

/-- The component state relevant to the session logic.

`transcript`, `finalTranscript`, `sessionId`, `liveStats`, `speechAnalysis`,
`isRecording`, `isProcessingAudio` and `error` are `useState` values;
`lastProcessedText`, `recognitionRef`, `audioContextRef`,
`mediaRecorderRecording` (`mediaRecorderRef.current.state === 'recording'`)
and `statsPolling` (`statsIntervalRef.current !== null`) are refs.
`interimText` records the interim part of the most recent recognition event:
the code keeps this preview only folded into `transcript`, and this field
makes it explicit (the `onresult` handler sets it to the event's interim
concatenation; clearing the transcript clears it). -/
structure WidgetState where
  isRecording : Bool := false
  isProcessingAudio : Bool := false
  transcript : String := ""
  finalTranscript : String := ""
  interimText : String := ""
  sessionId : Option String := none
  liveStats : LiveStats := initialLiveStats
  speechAnalysis : Option Analysis := none
  lastProcessedText : String := ""
  recognitionRef : Bool := false
  recognitionActive : Bool := false
  audioContextOpen : Bool := false
  mediaRecorderRecording : Bool := false
  statsPolling : Bool := false
  error : String := ""
deriving DecidableEq

/-- `stopStatsPolling`: clear the interval (if any). -/
def stopStatsPolling (s : WidgetState) : WidgetState :=
  { s with statsPolling := false }

/-- One tick of the `startStatsPolling` interval callback.  The closure
captured `currentSessionId`; `resp = none` models a thrown fetch. -/
def statsTick (s : WidgetState) (currentSessionId : Option String)
    (resp : Option StatsResponse) : WidgetState × List Act :=
  if optStrFalsy currentSessionId then (s, [])
  else
    match currentSessionId with
    | none => (s, [])
    | some id =>
      match resp with
      | none => (s, [Act.statsGet id])
      | some r =>
        if r.ok then
          if r.success then
            match r.live_stats with
            | some p => ({ s with liveStats := mergeLiveStats s.liveStats p }, [Act.statsGet id])
            | none => (s, [Act.statsGet id])
          else (s, [Act.statsGet id])
        else (s, [Act.statsGet id])

/-- `processAudioChunk`: post one audio chunk (`text_chunk` defaults to `""`)
and merge any returned `live_stats`; all failures are swallowed. -/
def processAudioChunk (s : WidgetState) (resp : Option StatsResponse) :
    WidgetState × List Act :=
  if optStrFalsy s.sessionId || !s.isRecording then (s, [])
  else
    match s.sessionId with
    | none => (s, [])
    | some id =>
      match resp with
      | none => (s, [Act.audioPost id ""])
      | some r =>
        if r.ok then
          if r.success then
            match r.live_stats with
            | some p => ({ s with liveStats := mergeLiveStats s.liveStats p }, [Act.audioPost id ""])
            | none => (s, [Act.audioPost id ""])
          else (s, [Act.audioPost id ""])
        else (s, [Act.audioPost id ""])

/-- `processTextUpdate(newText)`: guarded by session presence, recording
state and non-blank text; skips exact duplicates of the last processed text,
otherwise records the text, posts it, and merges any returned stats. -/
def processTextUpdate (s : WidgetState) (newText : String)
    (resp : Option StatsResponse) : WidgetState × List Act :=
  if optStrFalsy s.sessionId || !s.isRecording || strFalsy (jsTrim newText) then (s, [])
  else if newText = s.lastProcessedText then (s, [])
  else
    let s1 := { s with lastProcessedText := newText }
    match s1.sessionId with
    | none => (s1, [])
    | some id =>
      match resp with
      | none => (s1, [Act.audioPost id (jsTrim newText)])
      | some r =>
        if r.ok then
          if r.success then
            match r.live_stats with
            | some p =>
              ({ s1 with liveStats := mergeLiveStats s1.liveStats p },
               [Act.audioPost id (jsTrim newText)])
            | none => (s1, [Act.audioPost id (jsTrim newText)])
          else (s1, [Act.audioPost id (jsTrim newText)])
        else (s1, [Act.audioPost id (jsTrim newText)])

/-- One step of the `onresult` loop: accumulator is
(`interim`, `final`, `newFinalText`). -/
def foldStep (acc : String × String × String) (r : RecResult) :
    String × String × String :=
  if r.isFinal then (acc.1, acc.2.1 ++ r.text ++ " ", r.text)
  else (acc.1 ++ r.text, acc.2)

/-- The `for` loop of `recognition.onresult` over the new results. -/
def foldResults (rs : List RecResult) : String × String × String :=
  rs.foldl foldStep ("", "", "")

/-- The `recognition.onresult` handler: on a final result, append to
`finalTranscript`, append to the previous `transcript`, and forward the new
final text for analysis; otherwise recompute `transcript` as
`finalTranscript + interim`. -/
def recognitionOnresult (s : WidgetState) (ev : List RecResult)
    (resp : Option StatsResponse) : WidgetState × List Act :=
  let res := foldResults ev
  let interim := res.1
  let final := res.2.1
  let newFinal := res.2.2
  if strFalsy final then
    ({ s with transcript := s.finalTranscript ++ interim, interimText := interim }, [])
  else
    let s1 := { s with finalTranscript := s.finalTranscript ++ final,
                       transcript := s.transcript ++ final ++ interim,
                       interimText := interim }
    if strFalsy (jsTrim newFinal) then (s1, [])
    else processTextUpdate s1 (jsTrim newFinal) resp

/-- Apply a list of recognition events in order (responses irrelevant for
interim-only events; `none` is passed throughout). -/
def applyEvents (s : WidgetState) (evs : List (List RecResult)) : WidgetState :=
  evs.foldl (fun st ev => (recognitionOnresult st ev none).1) s

/-- The `setTimeout` delay of the `onend` restart, in milliseconds. -/
def restartDelayMs : Nat := 100

/-- The `recognition.onend` handler: while recording, schedule exactly one
restart timer; the returned list holds the delays of the timers scheduled. -/
def recognitionOnend (s : WidgetState) : List Nat :=
  if s.isRecording then [restartDelayMs] else []

/-- The restart timer callback, evaluated against the state at fire time:
it calls `recognition.start()` only if still recording and the recognition
ref is still set. -/
def restartTimerFire (s : WidgetState) : Bool :=
  s.isRecording && s.recognitionRef

/-- The `catch` block of `startRecording`: surface the error, stop
recognition if a recognition object exists, stop the media recorder if it is
recording, close the audio context if open, and leave `isRecording` false. -/
def startCatch (s : WidgetState) (msg : String) : WidgetState :=
  let s1 := { s with error := msg }
  let s2 := if s1.recognitionRef then { s1 with recognitionActive := false } else s1
  let s3 := if s2.mediaRecorderRecording then { s2 with mediaRecorderRecording := false } else s2
  let s4 := if s3.audioContextOpen then { s3 with audioContextOpen := false } else s3
  { s4 with isRecording := false }

/-- Oracle outcomes for the awaited steps of one `startRecording` attempt:
`createResp` is the created session id on success (`none` = creation failed),
`audioOk` whether `initAudioProcessing` returned a stream, `startOk` whether
the backend start responded ok and successful, `recogOk` whether
`recognition.start()` did not throw. -/
structure StartEnv where
  createResp : Option String
  audioOk : Bool
  startOk : Bool
  recogOk : Bool
deriving DecidableEq

/-- The session step of `startRecording`: use the existing id if truthy, else
call `createVoiceSession` (which stores the new id in state on success) and
fail if the result is still falsy. -/
def startSessionStep (s : WidgetState) (env : StartEnv) :
    Option String × WidgetState × List Act :=
  if optStrFalsy s.sessionId then
    match env.createResp with
    | some newId =>
      let s1 := { s with sessionId := some newId }
      if strFalsy newId then (none, s1, [Act.createSession])
      else (some newId, s1, [Act.createSession])
    | none =>
      (none, { s with error := "Session creation failed" }, [Act.createSession])
  else (s.sessionId, s, [])

/-- The rest of a `startRecording` attempt once a session id is at hand:
initialize audio, request backend start, start recognition and chunked
capture, mark recording and start polling — rolling back via `startCatch`
on any failure. -/
def startAfterSession (id : String) (s1 : WidgetState) (acts : List Act)
    (env : StartEnv) : WidgetState × List Act :=
  if env.audioOk then
    let s2 := { s1 with audioContextOpen := true }
    let acts2 := acts ++ [Act.startSession id]
    if env.startOk then
      let s3 := { s2 with recognitionRef := true }
      if env.recogOk then
        let s4 := { s3 with recognitionActive := true,
                            mediaRecorderRecording := true,
                            isRecording := true,
                            statsPolling := true,
                            lastProcessedText := "" }
        ({ s4 with isProcessingAudio := false }, acts2)
      else
        ({ startCatch s3 "Failed to start recording: recognition error" with
            isProcessingAudio := false }, acts2)
    else
      ({ startCatch s2 "Failed to start recording: start request failed" with
          isProcessingAudio := false }, acts2)
  else
    ({ startCatch s1 "Failed to start recording: Failed to initialize audio" with
        isProcessingAudio := false }, acts)

/-- `startRecording`: a no-op unless idle; otherwise ensure a session and run
the remaining start steps. -/
def startRecording (s : WidgetState) (env : StartEnv) : WidgetState × List Act :=
  if s.isProcessingAudio || s.isRecording then (s, [])
  else
    let s0 := { s with isProcessingAudio := true, error := "" }
    match startSessionStep s0 env with
    | (none, s1, acts) =>
      ({ startCatch s1 "Failed to start recording: Failed to create voice session" with
          isProcessingAudio := false }, acts)
    | (some id, s1, acts) => startAfterSession id s1 acts env

/-- Whether the session step of a start attempt yields a usable id. -/
def sessionAvailable (s : WidgetState) (env : StartEnv) : Bool :=
  if optStrFalsy s.sessionId then
    match env.createResp with
    | some id => !(strFalsy id)
    | none => false
  else true

/-- Whether the whole start attempt succeeds. -/
def startSucceeds (s : WidgetState) (env : StartEnv) : Bool :=
  sessionAvailable s env && env.audioOk && env.startOk && env.recogOk

/-- `stopRecording`: guarded on a session and recording; stop polling, stop
and drop recognition, stop the media recorder, close the audio context, leave
recording mode, then issue the backend stop and store any returned
analysis; failures only set the error text. -/
def stopRecording (s : WidgetState) (resp : Option StopResponse) :
    WidgetState × List Act :=
  if optStrFalsy s.sessionId || !s.isRecording then (s, [])
  else
    match s.sessionId with
    | none => (s, [])
    | some id =>
      let s1 := { s with isProcessingAudio := true, statsPolling := false }
      let acts1 : List Act := [Act.stopPoller]
      let step2 := if s1.recognitionRef
        then (({ s1 with recognitionRef := false, recognitionActive := false } : WidgetState),
              acts1 ++ [Act.stopRecognition])
        else (s1, acts1)
      let s2 := step2.1
      let step3 := if s2.mediaRecorderRecording
        then (({ s2 with mediaRecorderRecording := false } : WidgetState),
              step2.2 ++ [Act.stopAudioCapture])
        else (s2, step2.2)
      let s3 := step3.1
      let step4 := if s3.audioContextOpen
        then (({ s3 with audioContextOpen := false } : WidgetState),
              step3.2 ++ [Act.closeAudioContext])
        else (s3, step3.2)
      let s4 := step4.1
      let s5 := { s4 with isRecording := false }
      let acts5 := step4.2 ++ [Act.backendStop id]
      let s6 :=
        match resp with
        | none => { s5 with error := "Failed to stop recording" }
        | some r =>
          if r.ok then
            if r.success then
              match r.analysis with
              | some a => { s5 with speechAnalysis := some a }
              | none => s5
            else { s5 with error := "Failed to stop recording session" }
          else { s5 with error := "Failed to stop recording" }
      ({ s6 with isProcessingAudio := false }, acts5)

/-- `clearTranscript`: stop first if recording, clear the transcripts and the
analysis, delete the backend session (clearing the id), and reset the live
stats and the dedup tracker. -/
def clearTranscript (s : WidgetState) (stopResp : Option StopResponse) :
    WidgetState × List Act :=
  let step1 := if s.isRecording then stopRecording s stopResp else (s, [])
  let s1 := step1.1
  let s2 := { s1 with transcript := "", finalTranscript := "", interimText := "",
                      speechAnalysis := none }
  let step3 :=
    if optStrFalsy s2.sessionId then (s2, step1.2)
    else
      match s2.sessionId with
      | some id => (({ s2 with sessionId := none } : WidgetState),
                    step1.2 ++ [Act.deleteSession id])
      | none => (s2, step1.2)
  let s3 := step3.1
  ({ s3 with liveStats := initialLiveStats, lastProcessedText := "" }, step3.2)

/-- Whether a poll tick counts as failed: thrown fetch, non-ok response,
`success` false, or no `live_stats` payload. -/
def tickFailed : Option StatsResponse → Bool
  | none => true
  | some r => !r.ok || !r.success || r.live_stats.isNone

/-- A representative in-recording state used for concrete evaluations. -/
def recState : WidgetState :=
  { isRecording := true, sessionId := some "s1", recognitionRef := true,
    recognitionActive := true, audioContextOpen := true,
    mediaRecorderRecording := true, statsPolling := true }

/-- The transcript state after an interim event `"a"` followed by a final
event `"ab"`, starting from `recState`. -/
def cexState : WidgetState :=
  applyEvents recState [[⟨"a", false⟩], [⟨"ab", true⟩]]

/-- A representative idle state that already holds a session id. -/
def idleState : WidgetState := { sessionId := some "s1" }

/-- A sample partial stats payload carrying only a fluency value. -/
def samplePayload : StatsPayload :=
  { fluency := some 70, volume := none, articulation := none, clarity := none,
    filler_words := none, speaking_rate := none, confidence := none }

/-! ## Helper lemmas -/

theorem mergeLiveStats_get (prev : LiveStats) (p : StatsPayload) (m : Metric) :
    (mergeLiveStats prev p).get m = (p.get m).getD (prev.get m) := by
  cases m <;> rfl

theorem append_space_ne_empty (x : String) : x ++ " " ≠ "" := by
  intro h
  have h2 : (x ++ " ").length = 0 := by rw [h]; rfl
  rw [String.length_append] at h2
  have h3 : (" " : String).length = 1 := rfl
  omega

theorem processTextUpdate_frame (s : WidgetState) (t : String) (r : Option StatsResponse) :
    (processTextUpdate s t r).1.finalTranscript = s.finalTranscript
    ∧ (processTextUpdate s t r).1.transcript = s.transcript
    ∧ (processTextUpdate s t r).1.interimText = s.interimText
    ∧ (processTextUpdate s t r).1.sessionId = s.sessionId
    ∧ (processTextUpdate s t r).1.isRecording = s.isRecording := by
  cases hsid : s.sessionId with
  | none => simp [processTextUpdate, optStrFalsy, hsid]
  | some id =>
    cases r with
    | none =>
      unfold processTextUpdate
      simp only [hsid]
      repeat' split
      all_goals simp_all
    | some resp =>
      obtain ⟨ok, succ, ls⟩ := resp
      cases ok <;> cases succ <;> cases ls <;>
        (unfold processTextUpdate; simp only [hsid]; repeat' split; all_goals simp_all)

theorem processTextUpdate_dup (s : WidgetState) (t : String) (r : Option StatsResponse)
    (hdup : t = s.lastProcessedText) : processTextUpdate s t r = (s, []) := by
  unfold processTextUpdate
  split
  · rfl
  · simp [hdup]

theorem processTextUpdate_forward (s : WidgetState) (t : String) (r : Option StatsResponse)
    (id : String) (hsid : s.sessionId = some id) (hid : id ≠ "")
    (hrec : s.isRecording = true) (ht : jsTrim t ≠ "") (hne : t ≠ s.lastProcessedText) :
    (processTextUpdate s t r).1.lastProcessedText = t
    ∧ (processTextUpdate s t r).2 = [Act.audioPost id (jsTrim t)] := by
  cases r with
  | none =>
    unfold processTextUpdate
    simp [hsid, hrec, optStrFalsy, strFalsy, hid, ht, hne]
  | some resp =>
    obtain ⟨ok, succ, ls⟩ := resp
    cases ok <;> cases succ <;> cases ls <;>
      (unfold processTextUpdate; simp [hsid, hrec, optStrFalsy, strFalsy, hid, ht, hne])

theorem foldl_foldStep_interim (rs : List RecResult) (acc : String × String × String)
    (h : ∀ r ∈ rs, r.isFinal = false) :
    (rs.foldl foldStep acc).2 = acc.2 := by
  induction rs generalizing acc with
  | nil => rfl
  | cons r rs ih =>
    have hr : r.isFinal = false := h r (by simp)
    have hrs : ∀ x ∈ rs, x.isFinal = false := fun x hx => h x (by simp [hx])
    rw [List.foldl_cons, ih _ hrs]
    simp [foldStep, hr]

theorem onresult_interim_finalTranscript (s : WidgetState) (ev : List RecResult)
    (h : ∀ r ∈ ev, r.isFinal = false) :
    (recognitionOnresult s ev none).1.finalTranscript = s.finalTranscript := by
  have hfe : (foldResults ev).2 = ("", "") := foldl_foldStep_interim ev _ h
  have h1 : (foldResults ev).2.1 = "" := by rw [hfe]
  unfold recognitionOnresult
  simp [h1, strFalsy]

theorem applyEvents_finalTranscript (s : WidgetState) (evs : List (List RecResult))
    (h : ∀ ev ∈ evs, ∀ r ∈ ev, r.isFinal = false) :
    (applyEvents s evs).finalTranscript = s.finalTranscript := by
  induction evs generalizing s with
  | nil => rfl
  | cons ev evs ih =>
    have hstep : applyEvents s (ev :: evs)
        = applyEvents (recognitionOnresult s ev none).1 evs := rfl
    rw [hstep, ih _ (fun e he => h e (by simp [he]))]
    exact onresult_interim_finalTranscript s ev (h ev (by simp))

theorem onresult_single_final (s : WidgetState) (T : String) (resp : Option StatsResponse) :
    (recognitionOnresult s [⟨T, true⟩] resp).1.finalTranscript = s.finalTranscript ++ T ++ " "
    ∧ (recognitionOnresult s [⟨T, true⟩] resp).1.interimText = ""
    ∧ (recognitionOnresult s [⟨T, true⟩] resp).1.transcript = s.transcript ++ T ++ " " := by
  have hfold : foldResults [RecResult.mk T true] = ("", T ++ " ", T) := by
    simp [foldResults, foldStep, String.empty_append]
  have hne : strFalsy (T ++ " ") = false := by
    simp [strFalsy, append_space_ne_empty T]
  unfold recognitionOnresult
  rw [hfold]
  simp only [hne, Bool.false_eq_true, if_false]
  split
  · simp [String.append_assoc]
  · obtain ⟨f1, f2, f3, _, _⟩ := processTextUpdate_frame
      { s with finalTranscript := s.finalTranscript ++ (T ++ " "),
               transcript := s.transcript ++ (T ++ " ") ++ "",
               interimText := "" } (jsTrim T) resp
    simp only [f1, f2, f3]
    simp [String.append_assoc]

theorem startCatch_spec (s : WidgetState) (msg : String) (hra : s.recognitionActive = false) :
    (startCatch s msg).isRecording = false
    ∧ (startCatch s msg).recognitionActive = false
    ∧ (startCatch s msg).audioContextOpen = false
    ∧ (startCatch s msg).mediaRecorderRecording = false
    ∧ (startCatch s msg).error = msg
    ∧ (startCatch s msg).sessionId = s.sessionId := by
  unfold startCatch
  cases hRg : s.recognitionRef <;> cases hMr : s.mediaRecorderRecording <;>
    cases hAc : s.audioContextOpen <;> simp_all

theorem startAfterSession_fail (id : String) (s1 : WidgetState) (acts : List Act)
    (env : StartEnv) (hra : s1.recognitionActive = false)
    (hfail : (env.audioOk && env.startOk && env.recogOk) = false) :
    (startAfterSession id s1 acts env).1.isRecording = false
    ∧ (startAfterSession id s1 acts env).1.recognitionActive = false
    ∧ (startAfterSession id s1 acts env).1.audioContextOpen = false
    ∧ (startAfterSession id s1 acts env).1.mediaRecorderRecording = false
    ∧ (startAfterSession id s1 acts env).1.error ≠ ""
    ∧ (startAfterSession id s1 acts env).1.sessionId = s1.sessionId := by
  obtain ⟨cr, aOk, stOk, rOk⟩ := env
  cases aOk with
  | false =>
    obtain ⟨c1, c2, c3, c4, c5, c6⟩ :=
      startCatch_spec s1 "Failed to start recording: Failed to initialize audio" hra
    simp [startAfterSession, c1, c2, c3, c4, c5, c6]
  | true =>
    cases stOk with
    | false =>
      obtain ⟨c1, c2, c3, c4, c5, c6⟩ :=
        startCatch_spec { s1 with audioContextOpen := true }
          "Failed to start recording: start request failed" (by simpa using hra)
      simp [startAfterSession, c1, c2, c3, c4, c5, c6]
    | true =>
      cases rOk with
      | false =>
        obtain ⟨c1, c2, c3, c4, c5, c6⟩ :=
          startCatch_spec { s1 with audioContextOpen := true, recognitionRef := true }
            "Failed to start recording: recognition error" (by simpa using hra)
        simp [startAfterSession, c1, c2, c3, c4, c5, c6]
      | true => simp at hfail

theorem stopRecording_spec (s : WidgetState) (id : String) (resp : Option StopResponse)
    (hid : s.sessionId = some id) (hne : id ≠ "") (hrec : s.isRecording = true) :
    (stopRecording s resp).2 =
      [Act.stopPoller]
      ++ (if s.recognitionRef then [Act.stopRecognition] else [])
      ++ (if s.mediaRecorderRecording then [Act.stopAudioCapture] else [])
      ++ (if s.audioContextOpen then [Act.closeAudioContext] else [])
      ++ [Act.backendStop id]
    ∧ (stopRecording s resp).1.isRecording = false
    ∧ (stopRecording s resp).1.statsPolling = false
    ∧ (stopRecording s resp).1.sessionId = some id := by
  cases resp with
  | none =>
    cases hRg : s.recognitionRef <;> cases hMr : s.mediaRecorderRecording <;>
      cases hAc : s.audioContextOpen <;>
      simp [stopRecording, optStrFalsy, strFalsy, hid, hne, hrec, hRg, hMr, hAc]
  | some r =>
    obtain ⟨ok, succ, an⟩ := r
    cases hRg : s.recognitionRef <;> cases hMr : s.mediaRecorderRecording <;>
      cases hAc : s.audioContextOpen <;> cases ok <;> cases succ <;> cases an <;>
      simp [stopRecording, optStrFalsy, strFalsy, hid, hne, hrec, hRg, hMr, hAc]

/-! ## Claim theorems -/

/-- Claim C1, counterexample to the claim as stated: after one interim event
`"a"` followed by a final event `"ab"`, `finalTranscript` ends with the final
text plus a single space and the interim preview is empty, but the exposed
`transcript` is `"aab "` — the stale interim `"a"` is retained — so it does
not equal `finalTranscript ++ interimText`. -/
theorem transcript_not_final_plus_interim_cex :
    cexState.finalTranscript = "ab "
    ∧ cexState.interimText = ""
    ∧ cexState.transcript = "aab "
    ∧ cexState.transcript ≠ cexState.finalTranscript ++ cexState.interimText := by
  refine ⟨rfl, rfl, rfl, ?_⟩
  decide

/-- Claim C1, amended: for every sequence of interim events followed by a
final event carrying text `T`, `finalTranscript` becomes its prior value with
`T` and a single separating space appended, the interim preview becomes
empty, and the exposed `transcript` becomes its prior value (which may still
contain interim preview text) with `T` and a space appended — rather than
`finalTranscript ++ interimText`. -/
theorem final_event_appends_and_clears_interim (s : WidgetState)
    (evs : List (List RecResult)) (T : String) (resp : Option StatsResponse)
    (hevs : ∀ ev ∈ evs, ∀ r ∈ ev, r.isFinal = false) :
    (recognitionOnresult (applyEvents s evs) [⟨T, true⟩] resp).1.finalTranscript
        = s.finalTranscript ++ T ++ " "
    ∧ (recognitionOnresult (applyEvents s evs) [⟨T, true⟩] resp).1.interimText = ""
    ∧ (recognitionOnresult (applyEvents s evs) [⟨T, true⟩] resp).1.transcript
        = (applyEvents s evs).transcript ++ T ++ " " := by
  obtain ⟨h1, h2, h3⟩ := onresult_single_final (applyEvents s evs) T resp
  exact ⟨by rw [h1, applyEvents_finalTranscript s evs hevs], h2, h3⟩

/-- Witness for the amended claim C1 at a concrete input. -/
theorem final_event_appends_and_clears_interim_witness :
    (∀ ev ∈ [[RecResult.mk "a" false]], ∀ r ∈ ev, r.isFinal = false)
    ∧ ((recognitionOnresult (applyEvents recState [[RecResult.mk "a" false]])
          [⟨"b", true⟩] none).1.finalTranscript = recState.finalTranscript ++ "b" ++ " "
      ∧ (recognitionOnresult (applyEvents recState [[RecResult.mk "a" false]])
          [⟨"b", true⟩] none).1.interimText = ""
      ∧ (recognitionOnresult (applyEvents recState [[RecResult.mk "a" false]])
          [⟨"b", true⟩] none).1.transcript
          = (applyEvents recState [[RecResult.mk "a" false]]).transcript ++ "b" ++ " ") :=
  ⟨by decide,
   final_event_appends_and_clears_interim recState [[RecResult.mk "a" false]] "b" none
     (by decide)⟩

/-- Claim C2: with a session, while recording, and for non-blank text,
`processTextUpdate` forwards the segment if and only if it differs from the
last processed text; on forwarding it posts exactly one analysis request and
records the segment; a duplicate leaves everything unchanged, and submitting
the same segment twice in a row forwards it at most the first time. -/
theorem dedup_forwards_iff_changed (s : WidgetState) (t : String)
    (r1 r2 : Option StatsResponse)
    (hsid : optStrFalsy s.sessionId = false) (hrec : s.isRecording = true)
    (ht : jsTrim t ≠ "") :
    ((processTextUpdate s t r1).2 ≠ [] ↔ t ≠ s.lastProcessedText)
    ∧ (t ≠ s.lastProcessedText →
        (processTextUpdate s t r1).1.lastProcessedText = t
        ∧ ((processTextUpdate s t r1).2).length = 1)
    ∧ (t = s.lastProcessedText → (processTextUpdate s t r1).1 = s)
    ∧ (processTextUpdate (processTextUpdate s t r1).1 t r2).2 = [] := by
  cases hs2 : s.sessionId with
  | none => rw [hs2] at hsid; simp [optStrFalsy] at hsid
  | some id =>
    have hid : id ≠ "" := by
      rw [hs2] at hsid
      simpa [optStrFalsy, strFalsy] using hsid
    by_cases hdup : t = s.lastProcessedText
    · have hres := processTextUpdate_dup s t r1 hdup
      refine ⟨?_, fun hne => absurd hdup hne, fun _ => by rw [hres], ?_⟩
      · rw [hres]
        simp [hdup]
      · rw [hres]
        have h2 := processTextUpdate_dup s t r2 hdup
        rw [h2]
    · obtain ⟨hlast, htrace⟩ := processTextUpdate_forward s t r1 id hs2 hid hrec ht hdup
      refine ⟨?_, fun _ => ⟨hlast, by rw [htrace]; rfl⟩, fun h => absurd h hdup, ?_⟩
      · rw [htrace]
        simp [hdup]
      · have h2 := processTextUpdate_dup (processTextUpdate s t r1).1 t r2 hlast.symm
        rw [h2]

/-- Witness for claim C2 at a concrete input. -/
theorem dedup_forwards_iff_changed_witness :
    (optStrFalsy recState.sessionId = false ∧ recState.isRecording = true
      ∧ jsTrim "hi" ≠ "")
    ∧ (((processTextUpdate recState "hi" none).2 ≠ [] ↔ "hi" ≠ recState.lastProcessedText)
      ∧ ("hi" ≠ recState.lastProcessedText →
          (processTextUpdate recState "hi" none).1.lastProcessedText = "hi"
          ∧ ((processTextUpdate recState "hi" none).2).length = 1)
      ∧ ("hi" = recState.lastProcessedText →
          (processTextUpdate recState "hi" none).1 = recState)
      ∧ (processTextUpdate (processTextUpdate recState "hi" none).1 "hi" none).2 = []) :=
  ⟨⟨by decide, by decide, by decide⟩,
   dedup_forwards_iff_changed recState "hi" none none (by decide) (by decide) (by decide)⟩

/-- Claim C3: while recording, or while a start/stop transition is in flight
(`isProcessingAudio`), `startRecording` is a no-op — the state is unchanged
and no request (in particular no session creation) is issued. -/
theorem start_noop_when_active_or_transitioning (s : WidgetState) (env : StartEnv)
    (h : s.isRecording = true ∨ s.isProcessingAudio = true) :
    startRecording s env = (s, []) := by
  unfold startRecording
  rcases h with h | h <;> simp [h]

/-- Witness for claim C3 at a concrete input. -/
theorem start_noop_when_active_or_transitioning_witness :
    (recState.isRecording = true ∨ recState.isProcessingAudio = true)
    ∧ startRecording recState ⟨some "s2", true, true, true⟩ = (recState, []) :=
  ⟨Or.inl rfl,
   start_noop_when_active_or_transitioning recState ⟨some "s2", true, true, true⟩ (Or.inl rfl)⟩

/-- Claim C4: when any step of a start attempt fails (session creation,
audio initialization, backend start, or recognition start), the attempt rolls
back fully — not recording, recognition stopped, audio context closed, media
recorder stopped, the error surfaced — and a usable session id is kept for
retry exactly when the session step itself did not fail. -/
theorem start_failure_rolls_back (s : WidgetState) (env : StartEnv)
    (hrec : s.isRecording = false) (hproc : s.isProcessingAudio = false)
    (hra : s.recognitionActive = false)
    (hfail : startSucceeds s env = false) :
    (startRecording s env).1.isRecording = false
    ∧ (startRecording s env).1.recognitionActive = false
    ∧ (startRecording s env).1.audioContextOpen = false
    ∧ (startRecording s env).1.mediaRecorderRecording = false
    ∧ (startRecording s env).1.error ≠ ""
    ∧ (sessionAvailable s env = true →
        optStrFalsy (startRecording s env).1.sessionId = false
        ∧ (optStrFalsy s.sessionId = false →
            (startRecording s env).1.sessionId = s.sessionId))
    ∧ (sessionAvailable s env = false →
        optStrFalsy (startRecording s env).1.sessionId = true) := by
  have hguard : (s.isProcessingAudio || s.isRecording) = false := by simp [hrec, hproc]
  by_cases hsd : optStrFalsy s.sessionId = true
  · cases hcr : env.createResp with
    | none =>
      have havail : sessionAvailable s env = false := by
        simp [sessionAvailable, hsd, hcr]
      obtain ⟨c1, c2, c3, c4, c5, c6⟩ :=
        startCatch_spec { s with isProcessingAudio := true, error := "Session creation failed" }
          "Failed to start recording: Failed to create voice session" (by simpa using hra)
      unfold startRecording startSessionStep
      simp [hguard, hsd, hcr, c1, c2, c3, c4, c5, c6, havail]
    | some nid =>
      by_cases hnid : strFalsy nid = true
      · have havail : sessionAvailable s env = false := by
          simp [sessionAvailable, hsd, hcr, hnid]
        obtain ⟨c1, c2, c3, c4, c5, c6⟩ :=
          startCatch_spec { s with isProcessingAudio := true, error := "", sessionId := some nid }
            "Failed to start recording: Failed to create voice session" (by simpa using hra)
        unfold startRecording startSessionStep
        simp [hguard, hsd, hcr, hnid, c1, c2, c3, c4, c5, c6, havail]
        simp [strFalsy] at hnid
        simp [optStrFalsy, strFalsy, hnid]
      · have havail : sessionAvailable s env = true := by
          simp [sessionAvailable, hsd, hcr, hnid]
        have hfail2 : (env.audioOk && env.startOk && env.recogOk) = false := by
          rw [startSucceeds, havail] at hfail
          simpa using hfail
        obtain ⟨c1, c2, c3, c4, c5, c6⟩ :=
          startAfterSession_fail nid
            { s with isProcessingAudio := true, error := "", sessionId := some nid }
            [Act.createSession] env (by simpa using hra) hfail2
        unfold startRecording startSessionStep
        simp [hguard, hsd, hcr, hnid, c1, c2, c3, c4, c5, c6, havail]
        simp [strFalsy] at hnid
        simp [optStrFalsy, strFalsy, hnid, hsd]
  · have hsd2 : optStrFalsy s.sessionId = false := by simpa using hsd
    cases hs2 : s.sessionId with
    | none => rw [hs2] at hsd2; simp [optStrFalsy] at hsd2
    | some id =>
      have hid : strFalsy id = false := by rw [hs2] at hsd2; simpa [optStrFalsy] using hsd2
      have havail : sessionAvailable s env = true := by
        simp [sessionAvailable, hsd2, hs2, optStrFalsy, hid]
      have hfail2 : (env.audioOk && env.startOk && env.recogOk) = false := by
        rw [startSucceeds, havail] at hfail
        simpa using hfail
      obtain ⟨c1, c2, c3, c4, c5, c6⟩ :=
        startAfterSession_fail id { s with isProcessingAudio := true, error := "" }
          [] env (by simpa using hra) hfail2
      unfold startRecording startSessionStep
      rw [hs2] at c1 c2 c3 c4 c5 c6
      simp [hguard, hsd2, hs2, optStrFalsy, hid, c1, c2, c3, c4, c5, c6, havail]

/-- Witness for claim C4 at a concrete input (audio initialization fails
while a session id already exists). -/
theorem start_failure_rolls_back_witness :
    (idleState.isRecording = false ∧ idleState.isProcessingAudio = false
      ∧ idleState.recognitionActive = false
      ∧ startSucceeds idleState ⟨none, false, true, true⟩ = false)
    ∧ ((startRecording idleState ⟨none, false, true, true⟩).1.isRecording = false
      ∧ (startRecording idleState ⟨none, false, true, true⟩).1.recognitionActive = false
      ∧ (startRecording idleState ⟨none, false, true, true⟩).1.audioContextOpen = false
      ∧ (startRecording idleState ⟨none, false, true, true⟩).1.mediaRecorderRecording = false
      ∧ (startRecording idleState ⟨none, false, true, true⟩).1.error ≠ ""
      ∧ (sessionAvailable idleState ⟨none, false, true, true⟩ = true →
          optStrFalsy (startRecording idleState ⟨none, false, true, true⟩).1.sessionId = false
          ∧ (optStrFalsy idleState.sessionId = false →
              (startRecording idleState ⟨none, false, true, true⟩).1.sessionId
                = idleState.sessionId))
      ∧ (sessionAvailable idleState ⟨none, false, true, true⟩ = false →
          optStrFalsy (startRecording idleState ⟨none, false, true, true⟩).1.sessionId
            = true)) :=
  ⟨⟨by decide, by decide, by decide, by decide⟩,
   start_failure_rolls_back idleState ⟨none, false, true, true⟩
     (by decide) (by decide) (by decide) (by decide)⟩

/-- Claim C5: a `stopRecording` call while recording performs the teardown in
order — poller stopped first, then recognition, then audio capture (media
recorder, then audio context), and only then the backend stop request — and
the final mode is not recording (with polling off) for every backend
response, including failures. -/
theorem stop_teardown_order_and_idle (s : WidgetState) (id : String)
    (resp : Option StopResponse)
    (hid : s.sessionId = some id) (hne : id ≠ "") (hrec : s.isRecording = true) :
    (stopRecording s resp).2 =
      [Act.stopPoller]
      ++ (if s.recognitionRef then [Act.stopRecognition] else [])
      ++ (if s.mediaRecorderRecording then [Act.stopAudioCapture] else [])
      ++ (if s.audioContextOpen then [Act.closeAudioContext] else [])
      ++ [Act.backendStop id]
    ∧ (stopRecording s resp).1.isRecording = false
    ∧ (stopRecording s resp).1.statsPolling = false := by
  obtain ⟨h1, h2, h3, _⟩ := stopRecording_spec s id resp hid hne hrec
  exact ⟨h1, h2, h3⟩

/-- Witness for claim C5 at a concrete input (backend stop call throws). -/
theorem stop_teardown_order_and_idle_witness :
    (recState.sessionId = some "s1" ∧ "s1" ≠ "" ∧ recState.isRecording = true)
    ∧ ((stopRecording recState none).2 =
        [Act.stopPoller]
        ++ (if recState.recognitionRef then [Act.stopRecognition] else [])
        ++ (if recState.mediaRecorderRecording then [Act.stopAudioCapture] else [])
        ++ (if recState.audioContextOpen then [Act.closeAudioContext] else [])
        ++ [Act.backendStop "s1"]
      ∧ (stopRecording recState none).1.isRecording = false
      ∧ (stopRecording recState none).1.statsPolling = false) :=
  ⟨⟨by decide, by decide, by decide⟩,
   stop_teardown_order_and_idle recState "s1" none (by decide) (by decide) (by decide)⟩

/-- Claim C6: a `clearTranscript` call while recording performs the full stop
sequence first, then deletes the backend session, and resets the transcript
state, live stats, final analysis, and the dedup tracker to their initial
empty values with the session id cleared and recording off. -/
theorem clear_while_recording_resets (s : WidgetState) (id : String)
    (resp : Option StopResponse)
    (hid : s.sessionId = some id) (hne : id ≠ "") (hrec : s.isRecording = true) :
    (clearTranscript s resp).2 = (stopRecording s resp).2 ++ [Act.deleteSession id]
    ∧ (clearTranscript s resp).1.transcript = ""
    ∧ (clearTranscript s resp).1.finalTranscript = ""
    ∧ (clearTranscript s resp).1.interimText = ""
    ∧ (clearTranscript s resp).1.speechAnalysis = none
    ∧ (clearTranscript s resp).1.sessionId = none
    ∧ (clearTranscript s resp).1.liveStats = initialLiveStats
    ∧ (clearTranscript s resp).1.lastProcessedText = ""
    ∧ (clearTranscript s resp).1.isRecording = false := by
  obtain ⟨_, hStopRec, _, hStopSid⟩ := stopRecording_spec s id resp hid hne hrec
  unfold clearTranscript
  simp [hrec, hStopSid, hStopRec, optStrFalsy, strFalsy, hne]

/-- Witness for claim C6 at a concrete input. -/
theorem clear_while_recording_resets_witness :
    (recState.sessionId = some "s1" ∧ "s1" ≠ "" ∧ recState.isRecording = true)
    ∧ ((clearTranscript recState none).2
        = (stopRecording recState none).2 ++ [Act.deleteSession "s1"]
      ∧ (clearTranscript recState none).1.transcript = ""
      ∧ (clearTranscript recState none).1.finalTranscript = ""
      ∧ (clearTranscript recState none).1.interimText = ""
      ∧ (clearTranscript recState none).1.speechAnalysis = none
      ∧ (clearTranscript recState none).1.sessionId = none
      ∧ (clearTranscript recState none).1.liveStats = initialLiveStats
      ∧ (clearTranscript recState none).1.lastProcessedText = ""
      ∧ (clearTranscript recState none).1.isRecording = false) :=
  ⟨⟨by decide, by decide, by decide⟩,
   clear_while_recording_resets recState "s1" none (by decide) (by decide) (by decide)⟩

/-- Claim C7: a failed poll tick (thrown fetch, non-ok status, unsuccessful
or malformed payload) leaves the whole state — in particular the prior
`liveStats` — untouched; no tick (failed or not) ever stops the poller, which
stops only via the explicit `stopStatsPolling`. -/
theorem poll_tick_failure_preserves_stats (s : WidgetState) (cid : Option String)
    (resp : Option StatsResponse) (h : tickFailed resp = true) :
    (statsTick s cid resp).1 = s
    ∧ (∀ r2 : Option StatsResponse, (statsTick s cid r2).1.statsPolling = s.statsPolling)
    ∧ (stopStatsPolling s).statsPolling = false := by
  refine ⟨?_, ?_, rfl⟩
  · cases cid with
    | none => simp [statsTick, optStrFalsy]
    | some id =>
      cases resp with
      | none =>
        simp [statsTick]
        repeat' split
        all_goals simp_all
      | some r =>
        obtain ⟨ok, succ, ls⟩ := r
        cases ok <;> cases succ <;> cases ls <;>
          simp_all [statsTick, tickFailed, optStrFalsy, strFalsy] <;>
          (repeat' split) <;> simp_all
  · intro r2
    cases cid with
    | none => simp [statsTick, optStrFalsy]
    | some id =>
      cases r2 with
      | none =>
        simp [statsTick]
        repeat' split
        all_goals simp_all
      | some r =>
        obtain ⟨ok, succ, ls⟩ := r
        cases ok <;> cases succ <;> cases ls <;>
          simp_all [statsTick, optStrFalsy, strFalsy] <;>
          (repeat' split) <;> simp_all

/-- Witness for claim C7 at a concrete input (the fetch throws). -/
theorem poll_tick_failure_preserves_stats_witness :
    tickFailed none = true
    ∧ ((statsTick recState (some "s1") none).1 = recState
      ∧ (∀ r2 : Option StatsResponse,
          (statsTick recState (some "s1") r2).1.statsPolling = recState.statsPolling)
      ∧ (stopStatsPolling recState).statsPolling = false) :=
  ⟨by decide, poll_tick_failure_preserves_stats recState (some "s1") none (by decide)⟩

/-- Claim C8: when recognition ends while recording, the `onend` handler
schedules exactly one restart timer, with a fixed 100 ms delay; the timer
callback never restarts recognition once the mode has left recording by fire
time. -/
theorem recognition_restart_once_guarded (s : WidgetState) (h : s.isRecording = true) :
    recognitionOnend s = [restartDelayMs]
    ∧ restartDelayMs = 100
    ∧ (∀ s2 : WidgetState, s2.isRecording = false → restartTimerFire s2 = false) := by
  refine ⟨by simp [recognitionOnend, h], rfl, ?_⟩
  intro s2 h2
  simp [restartTimerFire, h2]

/-- Witness for claim C8 at a concrete input. -/
theorem recognition_restart_once_guarded_witness :
    recState.isRecording = true
    ∧ (recognitionOnend recState = [restartDelayMs]
      ∧ restartDelayMs = 100
      ∧ (∀ s2 : WidgetState, s2.isRecording = false → restartTimerFire s2 = false)) :=
  ⟨by decide, recognition_restart_once_guarded recState (by decide)⟩

/-- Claim C9: on a successful stats poll or audio-analysis response, the
live-stats update is a field-wise merge — every metric present in the payload
takes the payload's value, and every absent metric keeps its prior value. -/
theorem stats_merge_fieldwise (s : WidgetState) (id : String) (p : StatsPayload)
    (m : Metric) (hid : id ≠ "") (hs : s.sessionId = some id)
    (hrec : s.isRecording = true) :
    (statsTick s (some id) (some ⟨true, true, some p⟩)).1.liveStats.get m
      = (p.get m).getD (s.liveStats.get m)
    ∧ (processAudioChunk s (some ⟨true, true, some p⟩)).1.liveStats.get m
      = (p.get m).getD (s.liveStats.get m) := by
  constructor
  · simp [statsTick, optStrFalsy, strFalsy, hid, mergeLiveStats_get]
  · simp [processAudioChunk, optStrFalsy, strFalsy, hid, hs, hrec, mergeLiveStats_get]

/-- Witness for claim C9 at a concrete input (a payload carrying only a
fluency value, read at the fluency metric). -/
theorem stats_merge_fieldwise_witness :
    ("s1" ≠ "" ∧ recState.sessionId = some "s1" ∧ recState.isRecording = true)
    ∧ ((statsTick recState (some "s1")
          (some ⟨true, true, some samplePayload⟩)).1.liveStats.get Metric.fluency
        = (samplePayload.get Metric.fluency).getD (recState.liveStats.get Metric.fluency)
      ∧ (processAudioChunk recState
          (some ⟨true, true, some samplePayload⟩)).1.liveStats.get Metric.fluency
        = (samplePayload.get Metric.fluency).getD (recState.liveStats.get Metric.fluency)) :=
  ⟨⟨by decide, by decide, by decide⟩,
   stats_merge_fieldwise recState "s1" samplePayload Metric.fluency
     (by decide) (by decide) (by decide)⟩

/-- Claim C10: when no session id exists, recording is not active, or the new
text trims to empty, `processTextUpdate` issues no request and leaves the
state — in particular the last-processed-text tracker — unchanged. -/
theorem text_update_guards_noop (s : WidgetState) (t : String)
    (r : Option StatsResponse)
    (h : s.sessionId = none ∨ s.isRecording = false ∨ jsTrim t = "") :
    processTextUpdate s t r = (s, []) := by
  unfold processTextUpdate
  rcases h with h | h | h <;> simp [h, optStrFalsy, strFalsy]

/-- Witness for claim C10 at a concrete input (no session id). -/
theorem text_update_guards_noop_witness :
    (({} : WidgetState).sessionId = none ∨ ({} : WidgetState).isRecording = false
      ∨ jsTrim "hello" = "")
    ∧ processTextUpdate ({} : WidgetState) "hello" none = (({} : WidgetState), []) :=
  ⟨Or.inl rfl, text_update_guards_noop ({} : WidgetState) "hello" none (Or.inl rfl)⟩

end VoiceCoach
